import Mathlib

/-
Verification of the i2cpwm_controller program (src/src/i2cpwm_controller.cpp).

The C source is shallowly embedded below.  Machine integers of the source
are modelled by Int (no arithmetic in the program approaches the 32-bit
overflow boundary on the inputs considered); C integer division, which
truncates toward zero, is modelled by Int.tdiv.  Stateful code is modelled
by explicit state passing.  Twist message components, which the source
immediately truncates to int by passing them to int-typed helpers, are
modelled as Int; the float drive scale is modelled as Rat, on which the
comparison with 0.0 is exact, as it is on the floats it stands for.
-/

/-- Enumeration drive_modes of the source: MODE_UNDEFINED. -/
def MODE_UNDEFINED : Int := 0

/-- Enumeration drive_modes of the source: MODE_ACKERMAN. -/
def MODE_ACKERMAN : Int := 1

/-- Enumeration drive_modes of the source: MODE_DIFFERENTIAL. -/
def MODE_DIFFERENTIAL : Int := 2

/-- Enumeration drive_modes of the source: MODE_MECANUM. -/
def MODE_MECANUM : Int := 3

/-- Enumeration drive_modes of the source: MODE_INVALID. -/
def MODE_INVALID : Int := 4

/-- Enumeration drive_mode_positions of the source: POSITION_UNDEFINED. -/
def POSITION_UNDEFINED : Int := 0

/-- Enumeration drive_mode_positions of the source: POSITION_LEFTFRONT. -/
def POSITION_LEFTFRONT : Int := 1

/-- Enumeration drive_mode_positions of the source: POSITION_RIGHTFRONT. -/
def POSITION_RIGHTFRONT : Int := 2

/-- Enumeration drive_mode_positions of the source: POSITION_LEFTREAR. -/
def POSITION_LEFTREAR : Int := 3

/-- Enumeration drive_mode_positions of the source: POSITION_RIGHTREAR. -/
def POSITION_RIGHTREAR : Int := 4

/-- Enumeration drive_mode_positions of the source: POSITION_INVALID. -/
def POSITION_INVALID : Int := 5

/-- Struct servo_config of the source: center, range, direction and the
assigned drive position (mode_pos) of one channel. -/
structure servo_config where
  center : Int
  range : Int
  direction : Int
  mode_pos : Int
deriving DecidableEq, Repr

/-- Helper _abs of the source (integer absolute value). -/
def _abs (v1 : Int) : Int :=
  if v1 < 0 then 0 - v1 else v1

/-- Helper _min of the source. -/
def _min (v1 v2 : Int) : Int :=
  if v1 > v2 then v2 else v1

/-- Helper _max of the source. -/
def _max (v1 v2 : Int) : Int :=
  if v1 < v2 then v2 else v1

/-- Helper _absmax of the source: compares the absolute values a1 of v1 and
a2 of v2 and returns v2 when a1 is less than a2, otherwise v1. -/
def _absmax (v1 v2 : Int) : Int :=
  let a1 := _abs v1
  let a2 := _abs v2
  if a1 < a2 then v2 else v1

/-- Exact value of the cosine of pi times an integer k: 1 for even k and -1
for odd k.  In the source function _smoothing the argument of cos is always
pi times an integer, because the subexpression (1000 - speed) / 1000 is C
integer division between ints; for the multipliers 0 and 1, which are the
ones reached for speeds in 0..1000, the double-precision evaluation of the
source returns exactly 1.0 and -1.0, so this integer model is exact there. -/
def cos_pi_int (k : Int) : Int :=
  if k % 2 = 0 then 1 else -1

/-- Function _smoothing of the source:
return ((cos(_PI*((1000 - speed) / 1000)) + 1) / 2) * 1000;
with (1000 - speed) / 1000 being C integer division (Int.tdiv), so the
cosine argument is an integer multiple of pi.  The outer arithmetic on the
exact cosine values 1 and -1 is exact in double, and the final truncation
to int is the identity on the exact results 0 and 1000. -/
def _smoothing (speed : Int) : Int :=
  ((cos_pi_int ((1000 - speed).tdiv 1000) + 1).tdiv 2) * 1000

/-- Servo guard of _set_pwm_interval_proportional, line 384 of the source:
the condition (servo < 1) && (servo > 16). -/
def proportional_servo_check (servo : Int) : Bool :=
  decide (servo < 1) && decide (servo > 16)

/-- Servo guard of servos_absolute, line 595 of the source: the condition
(servo < 1) && (servo > 16). -/
def absolute_servo_check (servo : Int) : Bool :=
  decide (servo < 1) && decide (servo > 16)

/-- Channel index servo - 1 used by _set_pwm_interval_proportional to read
_servo_configs[_active_board-1][servo-1]; the inner array has the valid
indices 0..15. -/
def proportional_channel_index (servo : Int) : Int :=
  servo - 1

/-- Possible outcomes of _set_pwm_interval_proportional: each early return
with a ROS_ERROR, or the pulse value passed on to _set_pwm_interval. -/
inductive PropResult where
  | invalidServo : PropResult
  | invalidValue : PropResult
  | missingConfig : PropResult
  | invalidPos : Int → PropResult
  | ok : Int → PropResult
deriving DecidableEq, Repr

/-- Function _set_pwm_interval_proportional of the source.  The global table
_servo_configs is passed as the lookup function; the source reads the entry
lookup (active_board - 1) (servo - 1) after the (unsatisfiable) servo guard
and the value guard, then computes
pos = (direction * (((range / 2) * value) / 1000)) + center
with C truncating division, and rejects pos outside 0..4096. -/
def set_pwm_interval_proportional (lookup : Int → Int → servo_config)
    (active_board servo value : Int) : PropResult :=
  if proportional_servo_check servo then PropResult.invalidServo
  else if value < -1000 ∨ value > 1000 then PropResult.invalidValue
  else
    let configp := lookup (active_board - 1) (proportional_channel_index servo)
    if configp.center < 0 ∨ configp.range < 0 then PropResult.missingConfig
    else
      let pos := configp.direction * (((configp.range.tdiv 2) * value).tdiv 1000)
                   + configp.center
      if pos < 0 ∨ pos > 4096 then PropResult.invalidPos pos else PropResult.ok pos

/-- One element of the loop body of servos_absolute in the source: the servo
guard (servo < 1) && (servo > 16), then the value guard 0..4096, then the
pulse write _set_pwm_interval (servo, 0, value), modelled as the pair of the
servo and the value written. -/
def servos_absolute_entry (servo value : Int) : Option (Int × Int) :=
  if absolute_servo_check servo then none
  else if value < 0 ∨ value > 4096 then none
  else some (servo, value)

/-- Differential branch of servos_drive in the source, returning the pair
(speed[0], speed[1]).  The preamble computes dir_x, dir_r, temp_x and temp_r
exactly as the source does for this branch (dir_y and temp_y are not used by
it).  In the swap block of the source the third statement is
speed[1] - swap; which computes a value and discards it, so speed[1] keeps
its value; the let bindings below mirror the assignments that do happen. -/
def differential_speeds (linear_x angular_z : Int) : Int × Int :=
  let dir_x : Int := if linear_x > 0 then 1 else -1
  let dir_r : Int := if angular_z > 0 then 1 else -1
  let temp_x := _smoothing (_abs linear_x)
  let temp_r := (_smoothing (_abs angular_z)).tdiv 2
  let speed0 := temp_x * dir_x
  let speed1 := (temp_x - temp_r) * dir_x
  if dir_r < 0 then
    let speed0 := speed1
    (speed0, speed1)
  else
    (speed0, speed1)

/-- Mecanum branch of servos_drive in the source, returning the tuple
(speed[0], speed[1], speed[2], speed[3]) after the _absmax calls.  The
preamble computes dir_x, dir_y, temp_x, temp_y and temp_r exactly as the
source does; note the source derives temp_y from linear.x, not linear.y. -/
def mecanum_speeds (linear_x linear_y angular_z : Int) : Int × Int × Int × Int :=
  let dir_x : Int := if linear_x > 0 then 1 else -1
  let dir_y : Int := if linear_y > 0 then 1 else -1
  let temp_x := _smoothing (_abs linear_x)
  let temp_y := _smoothing (_abs linear_x)
  let temp_r := (_smoothing (_abs angular_z)).tdiv 2
  let speed0 := temp_x * dir_x
  let speed2 := temp_x * dir_x
  let speed1 := (temp_x - temp_r) * dir_x
  let speed3 := (temp_x - temp_r) * dir_x
  let speed0 := speed0 - temp_y * dir_y
  let speed3 := speed3 - temp_y * dir_y
  let speed1 := speed1 + temp_y * dir_y
  let speed2 := speed2 + temp_y * dir_y
  (_absmax speed0 1000, _absmax speed1 1000, _absmax speed2 1000, _absmax speed3 1000)

/-- Outcome of one entry of the loop of config_servos in the source: the
entry is rejected with a ROS_ERROR and a continue, or the channel
configuration is overwritten with the accepted values. -/
inductive ConfigResult where
  | rejected : ConfigResult
  | accepted : servo_config → ConfigResult
deriving DecidableEq, Repr

/-- One entry of the loop body of config_servos in the source.  The four
guards appear in source order; the second bounds check, whose error message
speaks about the range, tests center again instead of range, exactly as
line 875 of the source does.  An accepted entry overwrites the channel with
the given center, range and direction and resets mode_pos to
POSITION_UNDEFINED. -/
def config_servos_entry (servo center range direction : Int) : ConfigResult :=
  if servo < 1 ∨ servo > 16 then ConfigResult.rejected
  else if center < 0 ∨ center > 4096 then ConfigResult.rejected
  else if center < 0 ∨ center > 4096 then ConfigResult.rejected
  else if center - range.tdiv 2 < 0 ∨ range.tdiv 2 + center > 4096 then ConfigResult.rejected
  else ConfigResult.accepted ⟨center, range, direction, POSITION_UNDEFINED⟩

/-- One entry of the servo loop of config_drive_mode in the source (lines
962..982): board guard, servo guard, then the position guard
(position < POSITION_UNDEFINED) || (position > POSITION_LEFTREAR), and on
success the assignment of position to the channel field mode_pos.  The
result is the new value of mode_pos of the addressed channel paired with
whether the entry was rejected. -/
def config_drive_mode_assign (active_board servo position old_mode_pos : Int) :
    Int × Bool :=
  if active_board < 1 ∨ active_board > 62 then (old_mode_pos, true)
  else if servo < 1 ∨ servo > 16 then (old_mode_pos, true)
  else if position < POSITION_UNDEFINED ∨ position > POSITION_LEFTREAR then
    (old_mode_pos, true)
  else (position, false)

/-- Struct drive_mode of the source: the active drive mode and the Twist
scale. -/
structure drive_mode where
  mode : Int
  scale : Rat
deriving DecidableEq, Repr

/-- Mode-name lookup of config_drive_mode in the source: the strcmp chain
over ackerman, differential and mecanum, with MODE_INVALID for any other
string. -/
def mode_of_name (s : String) : Int :=
  if s = "ackerman" then MODE_ACKERMAN
  else if s = "differential" then MODE_DIFFERENTIAL
  else if s = "mecanum" then MODE_MECANUM
  else MODE_INVALID

/-- Mode and scale part of config_drive_mode in the source (lines 929..960),
acting on the global _active_drive.  An unrecognized name returns error -1
before any assignment.  For a recognized name the source assigns
_active_drive.mode = mode first, then checks the scale: a scale <= 0.0
returns error -1 with the mode already overwritten and the scale untouched;
otherwise mode and scale are both stored and the error is 0. -/
def config_drive_mode_main (st : drive_mode) (modeName : String) (scale : Rat) :
    drive_mode × Int :=
  let mode := mode_of_name modeName
  if mode = MODE_INVALID then (st, -1)
  else
    let st1 : drive_mode := { st with mode := mode }
    if scale ≤ 0 then (st1, -1)
    else ({ mode := mode, scale := scale }, 0)

/-- Service set_pwm_frequency of the source (lines 779..791).  The result is
the pair of the frequency passed to _set_pwm_frequency, which stores it in
_pwm_frequency and programs the device prescale from it, and the final
res.error value.  An out-of-range request is replaced by the default 50
before being applied. -/
def set_pwm_frequency_service (reqValue : Int) : Int × Int :=
  let freq := reqValue
  if freq < 12 ∨ freq > 1024 then (50, 50) else (freq, freq)

/-- The board-related global state of the source that _set_active_board and
stop_servos touch: _active_board and the _pwm_boards table (index 0..61,
negative when the board has not been initialized, 1 once it has). -/
structure CtrlState where
  active_board : Int
  pwm_boards : Int → Int

/-- Function _set_active_board of the source (lines 475..523).  The bus
ioctl and the wake-sequence register writes only touch the hardware; the
global-state effects are the assignment of _active_board and the marking of
a first-time board in _pwm_boards, which happen in this order.  The guard
returns the state unchanged for a board outside 1..62, and nothing happens
when the board is already active. -/
def _set_active_board (st : CtrlState) (board : Int) : CtrlState :=
  if board < 1 ∨ board > 62 then st
  else if st.active_board ≠ board then
    let st1 : CtrlState := { st with active_board := board }
    let b := board - 1
    if st1.pwm_boards b < 0 then
      { st1 with pwm_boards := fun i => if i = b then 1 else st1.pwm_boards i }
    else st1
  else st

/-- Service stop_servos of the source (lines 1002..1015): save _active_board,
then for every i in 0..61 with _pwm_boards[i] > 0 select board i+1 and zero
all of its channels (the zeroing is a pure hardware write), and finally
assign the saved value back to _active_board. -/
def stop_servos (st : CtrlState) : CtrlState :=
  let save_active := st.active_board
  let st1 := (List.range 62).foldl
    (fun s i =>
      if s.pwm_boards (Int.ofNat i) > 0 then _set_active_board s (Int.ofNat i + 1)
      else s) st
  { st1 with active_board := save_active }

/-- Helper: the servo guard of the proportional path is never satisfied. -/
theorem proportional_servo_check_eq_false (servo : Int) :
    proportional_servo_check servo = false := by
  unfold proportional_servo_check
  by_cases h : servo < 1
  · have hh : ¬ servo > 16 := by omega
    simp [h, hh]
  · simp [h]

/-- Helper: the servo guard of the absolute path is never satisfied. -/
theorem absolute_servo_check_eq_false (servo : Int) :
    absolute_servo_check servo = false := by
  unfold absolute_servo_check
  by_cases h : servo < 1
  · have hh : ¬ servo > 16 := by omega
    simp [h, hh]
  · simp [h]

/-- C1: the easing function of the code maps 0 to 0 and 1000 to 1000, but it
maps 500 to 1000, not to 500: the subexpression (1000 - speed) / 1000 is
integer division, so the cosine argument is 0 for every speed in 1..1000 and
the curve degenerates to a step.  This evaluates the code at the failing
input 500 next to the two endpoint values. -/
theorem smoothing_midpoint_bug :
    _smoothing 0 = 0 ∧ _smoothing 1000 = 1000 ∧ _smoothing 500 = 1000 := by
  refine ⟨by decide, by decide, by decide⟩

/-- C2: evaluation of the mecanum speed computation at linear_x = 1000,
linear_y = 1000, angular_z = 0.  Before the clamp the four wheel speeds are
(0, 2000, 2000, 0); the code returns (1000, 2000, 2000, 1000): the speeds of
magnitude 2000 pass through _absmax unclamped while the in-range speeds 0
are replaced by 1000, because _absmax returns its second argument exactly
when the first is smaller in magnitude.  The two _absmax conjuncts exhibit
the helper behavior directly. -/
theorem mecanum_clamp_bug :
    mecanum_speeds 1000 1000 0 = (1000, 2000, 2000, 1000) ∧
    _absmax 2000 1000 = 2000 ∧ _absmax 0 1000 = 1000 ∧ _absmax (-2000) 1000 = -2000 := by
  refine ⟨by decide, by decide, by decide, by decide⟩

/-- C3: evaluation of the differential speed computation at linear_x = 1000
with angular_z = 500 and angular_z = -500.  The positive-rotation pair is
(1000, 500); the claim says the negative-rotation pair is the reverse tuple
(500, 1000), but the code produces (500, 500): the statement
speed[1] - swap; discards its result, so only speed[0] is overwritten. -/
theorem differential_swap_bug :
    differential_speeds 1000 500 = (1000, 500) ∧
    differential_speeds 1000 (-500) = (500, 500) := by
  refine ⟨by decide, by decide⟩

/-- C6: the drive-position guard of config_drive_mode rejects
POSITION_RIGHTREAR = 4 because its upper bound is POSITION_LEFTREAR = 3,
although the error message of the source itself lists 4 = right rear as
valid; positions 0..3 are accepted and overwrite the field. -/
theorem drive_position_rightrear_rejected :
    config_drive_mode_assign 1 1 POSITION_RIGHTREAR (-1) = (-1, true) ∧
    config_drive_mode_assign 1 1 POSITION_UNDEFINED (-1) = (0, false) ∧
    config_drive_mode_assign 1 1 POSITION_LEFTFRONT (-1) = (1, false) ∧
    config_drive_mode_assign 1 1 POSITION_RIGHTFRONT (-1) = (2, false) ∧
    config_drive_mode_assign 1 1 POSITION_LEFTREAR (-1) = (3, false) ∧
    config_drive_mode_assign 1 1 5 (-1) = (-1, true) := by
  refine ⟨by decide, by decide, by decide, by decide, by decide, by decide⟩

/-- C7: config_servos accepts the entry servo 1, center 336, range -96,
direction 1, storing the negative range, although it violates the invariant
0 <= range: the range bounds check of the source re-tests center.  The two
particular cases of the claim do hold: center 4000 with range 200 is
rejected by the combination check and center 336 with range 96 is
accepted. -/
theorem config_servos_negative_range_accepted :
    config_servos_entry 1 336 (-96) 1 = ConfigResult.accepted ⟨336, -96, 1, 0⟩ ∧
    ((-96 : Int) < 0) ∧
    config_servos_entry 1 4000 200 1 = ConfigResult.rejected ∧
    config_servos_entry 1 336 96 1 = ConfigResult.accepted ⟨336, 96, 1, 0⟩ := by
  refine ⟨by decide, by decide, by decide, by decide⟩

/-- C4: for every configured channel (center and range nonnegative) and
every proportional value in -1000..1000, the proportional conversion
computes pos = direction * ((range / 2) * value / 1000) + center with
truncating division and rejects with the computed-range error exactly when
pos < 0 or pos > 4096; and the three particular values of the claim for
center 336, range 96, direction 1. -/
theorem proportional_conversion_spec :
    (∀ cfg : servo_config, ∀ value : Int,
      0 ≤ cfg.center → 0 ≤ cfg.range → -1000 ≤ value → value ≤ 1000 →
      set_pwm_interval_proportional (fun _ _ => cfg) 1 1 value =
        (if cfg.direction * (((cfg.range.tdiv 2) * value).tdiv 1000) + cfg.center < 0 ∨
            cfg.direction * (((cfg.range.tdiv 2) * value).tdiv 1000) + cfg.center > 4096
         then PropResult.invalidPos
                (cfg.direction * (((cfg.range.tdiv 2) * value).tdiv 1000) + cfg.center)
         else PropResult.ok
                (cfg.direction * (((cfg.range.tdiv 2) * value).tdiv 1000) + cfg.center))) ∧
    set_pwm_interval_proportional (fun _ _ => ⟨336, 96, 1, 0⟩) 1 1 0 = PropResult.ok 336 ∧
    set_pwm_interval_proportional (fun _ _ => ⟨336, 96, 1, 0⟩) 1 1 1000 = PropResult.ok 384 ∧
    set_pwm_interval_proportional (fun _ _ => ⟨336, 96, 1, 0⟩) 1 1 (-1000) = PropResult.ok 288 := by
  refine ⟨?_, by decide, by decide, by decide⟩
  intro cfg value h1 h2 h3 h4
  unfold set_pwm_interval_proportional
  rw [proportional_servo_check_eq_false]
  simp only [Bool.false_eq_true, if_false]
  rw [if_neg (by omega)]
  rw [if_neg (by omega)]

/-- C4 witness: the general conjunct applied to the concrete configuration
center 336, range 96, direction 1 and the value 1000, where the computed
position 384 is in range and accepted. -/
theorem proportional_conversion_spec_witness :
    set_pwm_interval_proportional (fun _ _ => ⟨336, 96, 1, 0⟩) 1 1 1000 = PropResult.ok 384 := by
  have h := proportional_conversion_spec.1 ⟨336, 96, 1, 0⟩ 1000
    (by decide) (by decide) (by decide) (by decide)
  simpa using h

/-- C5: every requested frequency outside 12..1024 is rejected: the
frequency applied to the device (and stored in _pwm_frequency) is the
default 50, not the requested value. -/
theorem frequency_out_of_range_rejected (freq : Int)
    (h : freq < 12 ∨ freq > 1024) :
    (set_pwm_frequency_service freq).1 = 50 ∧
    (set_pwm_frequency_service freq).1 ≠ freq := by
  unfold set_pwm_frequency_service
  rw [if_pos h]
  exact ⟨rfl, by omega⟩

/-- C5 witness: the requested frequency 2000 is out of range and 50 is
applied instead. -/
theorem frequency_out_of_range_rejected_witness :
    (set_pwm_frequency_service 2000).1 = 50 ∧
    (set_pwm_frequency_service 2000).1 ≠ 2000 :=
  frequency_out_of_range_rejected 2000 (by decide)

set_option maxRecDepth 8000

/-- C8: for every starting state, stop_servos restores _active_board to its
pre-call value after walking all initialized boards. -/
theorem stop_servos_preserves_active_board (st : CtrlState) :
    (stop_servos st).active_board = st.active_board := rfl

/-- C9: the servo guard (servo < 1) && (servo > 16) of the proportional
pulse path is unsatisfiable, and so is the identical guard of the absolute
topic handler; the channel index servo - 1 computed for the out-of-range
servo numbers 0 and 17 falls outside the valid index range 0..15 of the
per-board configuration array, and the result of the proportional path for
those servo numbers genuinely depends on entries outside that range: two
tables agreeing on every in-bounds entry give different results. -/
theorem servo_guard_unsatisfiable :
    (∀ servo : Int, proportional_servo_check servo = false) ∧
    (∀ servo : Int, absolute_servo_check servo = false) ∧
    proportional_channel_index 0 = -1 ∧
    proportional_channel_index 17 = 16 ∧
    (∃ f g : Int → Int → servo_config,
      (∀ i : Fin 62, ∀ j : Fin 16,
        f (i.val : Int) (j.val : Int) = g (i.val : Int) (j.val : Int)) ∧
      set_pwm_interval_proportional f 1 0 0 ≠ set_pwm_interval_proportional g 1 0 0 ∧
      set_pwm_interval_proportional f 1 17 0 ≠ set_pwm_interval_proportional g 1 17 0) := by
  refine ⟨proportional_servo_check_eq_false, absolute_servo_check_eq_false,
    by decide, by decide, ?_⟩
  refine ⟨fun _ _ => ⟨336, 96, 1, -1⟩,
    fun _ j => if j < 0 ∨ j > 15 then ⟨100, 96, 1, -1⟩ else ⟨336, 96, 1, -1⟩, ?_, ?_, ?_⟩
  · intro i j
    have hj := j.isLt
    show (⟨336, 96, 1, -1⟩ : servo_config) =
      if ((j.val : Int)) < 0 ∨ ((j.val : Int)) > 15 then ⟨100, 96, 1, -1⟩
      else ⟨336, 96, 1, -1⟩
    rw [if_neg (by omega)]
  · decide
  · decide

/-- C10: for every starting drive configuration, a request with a recognized
mode name but a non-positive scale is rejected with error -1, yet the stored
mode has already been overwritten with the requested mode; only the previous
scale is preserved. -/
theorem config_drive_mode_partial_update (st : drive_mode) (modeName : String)
    (scale : Rat) (hmode : mode_of_name modeName ≠ MODE_INVALID)
    (hscale : scale ≤ 0) :
    config_drive_mode_main st modeName scale =
      ({ mode := mode_of_name modeName, scale := st.scale }, -1) := by
  unfold config_drive_mode_main
  rw [if_neg hmode, if_pos hscale]

/-- C10 witness: starting from the undefined mode with scale 1, the request
for the differential mode with scale 0 is rejected with error -1 while the
stored mode becomes MODE_DIFFERENTIAL = 2 and the scale stays 1. -/
theorem config_drive_mode_partial_update_witness :
    config_drive_mode_main ⟨0, 1⟩ "differential" 0 = (⟨2, 1⟩, -1) := by
  have h := config_drive_mode_partial_update ⟨0, 1⟩ "differential" 0
    (by decide) (by norm_num)
  simpa [mode_of_name, MODE_DIFFERENTIAL] using h
